import Mathlib

/-!
Verification of the real-time one-to-one messaging subsystem: chat identity
derivation, conversation initialization, message append/edit/delete, read
receipts, unread-count aggregation and the message-notification emitter.

The embedding mirrors the client code operating against the document store:
* a `Chat` is the conversation document (`chats/{chatId}`),
* a `Message` is a document of the `chats/{chatId}/messages` subcollection,
* a `Notification` is a message-kind document of the `notifications` collection,
* `ChatStore` is the slice of the store one conversation's handlers touch.

Server-assigned timestamps are modelled as `Nat`; fields the code writes as
`null` or leaves absent are `Option.none` (the JavaScript reads in the unread
hooks treat `null`, `undefined` and `""` alike as falsy, which the embedding
reproduces explicitly via emptiness tests).
-/

/-- A message document.  `seenBy` is the list of user ids who have viewed the
message; `isStoryReply`, `storyId` and `isEdited` are optional fields that are
absent (`none`) unless written. -/
structure Message where
  id : String
  text : String
  senderId : String
  timestamp : Nat
  seenBy : List String
  seenAt : Option Nat
  isStoryReply : Option Bool
  storyId : Option String
  isEdited : Option Bool
  deriving DecidableEq, Repr

/-- A conversation document.  `lastMessageSender` is absent until a first
message is sent (the composer's `initializeChat` does not write the field). -/
structure Chat where
  participants : List String
  createdAt : Nat
  lastMessage : Option String
  lastMessageTime : Option Nat
  lastMessageSender : Option String
  deriving DecidableEq, Repr

/-- A message-kind notification document. -/
structure Notification where
  userId : String
  type : String
  senderId : String
  senderUsername : String
  senderProfilePic : String
  messagePreview : String
  timestamp : Nat
  read : Bool
  deriving DecidableEq, Repr

/-- The slice of the document store touched by one conversation's handlers:
the conversation document (possibly not yet created), its message
subcollection in the order the `orderBy timestamp asc` subscription delivers
it, and the notifications collection. -/
structure ChatStore where
  chat : Option Chat
  messages : List Message
  notifications : List Notification
  deriving DecidableEq, Repr

/-- Lexicographic "less or equal" on character lists: the order the JavaScript
default `Array.sort()` applies to strings (code-unit comparison; it agrees
with code-point comparison on all the identifiers at play). -/
def charListLeb : List Char → List Char → Bool
  | [], _ => true
  | _ :: _, [] => false
  | a :: as, b :: bs =>
    if a < b then true
    else if b < a then false
    else charListLeb as bs

/-- Lexicographic comparison of two strings, as the default string sort uses. -/
def strLeb (a b : String) : Bool := charListLeb a.data b.data

/-- `getChatId` from the chat interface (and repeated verbatim in the story
viewer): sort the two participant ids with the default lexicographic string
order and join them with an underscore. -/
def getChatId (uid recipientId : String) : String :=
  if strLeb uid recipientId then uid ++ "_" ++ recipientId
  else recipientId ++ "_" ++ uid

theorem charListLeb_total (xs ys : List Char) :
    charListLeb xs ys = true ∨ charListLeb ys xs = true := by
  induction xs generalizing ys with
  | nil => exact Or.inl rfl
  | cons a as ih =>
    cases ys with
    | nil => exact Or.inr rfl
    | cons b bs =>
      by_cases hab : a < b
      · left; simp [charListLeb, hab]
      · by_cases hba : b < a
        · right; simp [charListLeb, hba, hab]
        · rcases ih bs with h | h
          · left; simp [charListLeb, hab, hba, h]
          · right; simp [charListLeb, hab, hba, h]

theorem charListLeb_antisymm {xs ys : List Char}
    (h1 : charListLeb xs ys = true) (h2 : charListLeb ys xs = true) : xs = ys := by
  induction xs generalizing ys with
  | nil =>
    cases ys with
    | nil => rfl
    | cons b bs => simp [charListLeb] at h2
  | cons a as ih =>
    cases ys with
    | nil => simp [charListLeb] at h1
    | cons b bs =>
      by_cases hab : a < b
      · simp [charListLeb, hab, lt_asymm hab] at h2
      · by_cases hba : b < a
        · simp [charListLeb, hab, hba] at h1
        · have hchar : a = b := le_antisymm (not_lt.mp hba) (not_lt.mp hab)
          subst hchar
          simp only [charListLeb, lt_irrefl, if_false] at h1 h2
          exact congrArg (a :: ·) (ih h1 h2)

theorem strLeb_antisymm {a b : String} (h1 : strLeb a b = true)
    (h2 : strLeb b a = true) : a = b := by
  cases a with
  | mk da =>
    cases b with
    | mk db => exact congrArg String.mk (charListLeb_antisymm h1 h2)

/-- C1: `resolveConversationId` is symmetric in its two arguments, and on the
concrete pair "alice"/"zane" both argument orders give "alice_zane". -/
theorem getChatId_symm :
    (∀ a b : String, getChatId a b = getChatId b a)
    ∧ getChatId "alice" "zane" = "alice_zane"
    ∧ getChatId "zane" "alice" = "alice_zane" := by
  refine ⟨fun a b => ?_, by decide, by decide⟩
  unfold getChatId
  rcases h1 : strLeb a b with _ | _ <;> rcases h2 : strLeb b a with _ | _
  · rcases charListLeb_total a.data b.data with h | h
    · exact absurd h (by simpa [strLeb] using h1)
    · exact absurd h (by simpa [strLeb] using h2)
  · simp
  · simp
  · have hab : a = b := strLeb_antisymm h1 h2
    subst hab; rfl

/-- `initializeChat` from the chat interface's mount effect: read the chat
document; when it does not exist, create it with the participants, a
server-assigned `createdAt` and `lastMessage`/`lastMessageTime` null (the
`lastMessageSender` field is not written at all, i.e. absent). When it
exists, do nothing. The argument `existing` is the current content of
`chats/{chatId}`, the result the content after the call. -/
def initializeChat (existing : Option Chat) (uid recipientId : String)
    (now : Nat) : Chat :=
  match existing with
  | some c => c
  | none =>
      { participants := [uid, recipientId]
        createdAt := now
        lastMessage := none
        lastMessageTime := none
        lastMessageSender := none }

/-- The `updateDoc(chatRef, { lastMessage, lastMessageTime, lastMessageSender })`
call issued on every send: overwrite exactly the three last-message summary
fields. -/
def recordLastMessage (c : Chat) (text : String) (now : Nat)
    (sender : String) : Chat :=
  { c with
    lastMessage := some text
    lastMessageTime := some now
    lastMessageSender := some sender }

/-- JavaScript `String.prototype.trim`: strip leading and trailing
whitespace. -/
def jsTrim (s : String) : String :=
  String.mk
    (((s.data.dropWhile Char.isWhitespace).reverse.dropWhile
      Char.isWhitespace).reverse)

/-- The notification preview: `text.length > 50 ? text.substring(0, 50) + '...'
: text`. The suffix is the three ASCII characters "...". -/
def messagePreview (text : String) : String :=
  if text.length > 50 then String.mk (text.data.take 50) ++ "..." else text

/-- The message-kind notification document both send paths write. -/
def mkMessageNotification (recipientId uid senderUsername senderProfilePic
    messageText : String) (now : Nat) : Notification :=
  { userId := recipientId
    type := "message"
    senderId := uid
    senderUsername := senderUsername
    senderProfilePic := senderProfilePic
    messagePreview := messagePreview messageText
    timestamp := now
    read := false }

/-- The message document the composer's `addDoc` writes: `seenBy` is the
singleton of the sender, `seenAt` null, and no `isStoryReply`, `storyId` or
`isEdited` field is written. -/
def mkComposerMessage (nextId : String) (uid messageText : String)
    (now : Nat) : Message :=
  { id := nextId
    text := messageText
    senderId := uid
    timestamp := now
    seenBy := [uid]
    seenAt := none
    isStoryReply := none
    storyId := none
    isEdited := none }

/-- The message document the story-reply path's `addDoc` writes: same shape as
a composer message plus `isStoryReply: true` and the story reference. -/
def mkStoryReplyMessage (nextId : String) (uid messageText storyId : String)
    (now : Nat) : Message :=
  { id := nextId
    text := messageText
    senderId := uid
    timestamp := now
    seenBy := [uid]
    seenAt := none
    isStoryReply := some true
    storyId := some storyId
    isEdited := none }

/-- `handleSendMessage` from the chat interface. Mirrors the handler's write
sequence against the store slice: guard on blank text; append the message
document; `updateDoc` the three last-message fields on the chat document
(update of a missing document rejects, aborting the handler into its outer
catch — the chat exists in practice because `initializeChat` ran on mount);
then, in an inner try/catch, write the recipient's message notification.
`notifWriteOk = false` plays the store rejecting that notification write: the
inner catch only logs, so the handler still completes. The returned `Bool` is
true when the handler reaches its normal end (input cleared, no error toast). -/
def handleSendMessage (st : ChatStore) (uid recipientId rawText : String)
    (now : Nat) (senderUsername senderProfilePic : String)
    (notifWriteOk : Bool) (nextId : String) : ChatStore × Bool :=
  if (jsTrim rawText).isEmpty then (st, true)
  else
    let messageText := jsTrim rawText
    let msg := mkComposerMessage nextId uid messageText now
    match st.chat with
    | none => ({ st with messages := st.messages ++ [msg] }, false)
    | some c =>
        let chat1 := recordLastMessage c messageText now uid
        let notifs :=
          if notifWriteOk then
            st.notifications ++
              [mkMessageNotification recipientId uid senderUsername
                senderProfilePic messageText now]
          else st.notifications
        ({ chat := some chat1
           messages := st.messages ++ [msg]
           notifications := notifs }, true)

/-- The message branch of `handleSendLikeOrMessage` in the story viewer:
guard on blank text; create the chat document with the summary fields filled
when it does not exist, else `updateDoc` the three summary fields; append the
story-reply message; then write the recipient's notification WITHOUT an inner
try/catch — a rejected notification write escapes to the handler's outer
catch ("Failed to send message" toast, input retained), after the message and
chat writes have already been applied. The returned `Bool` is true when the
handler reaches its normal end. -/
def handleSendLikeOrMessage (st : ChatStore) (uid authorId rawText
    storyId : String) (now : Nat) (senderUsername senderProfilePic : String)
    (notifWriteOk : Bool) (nextId : String) : ChatStore × Bool :=
  if (jsTrim rawText).isEmpty then (st, true)
  else
    let messageText := jsTrim rawText
    let chat1 :=
      match st.chat with
      | none =>
          { participants := [uid, authorId]
            createdAt := now
            lastMessage := some messageText
            lastMessageTime := some now
            lastMessageSender := some uid }
      | some c => recordLastMessage c messageText now uid
    let msg := mkStoryReplyMessage nextId uid messageText storyId now
    if notifWriteOk then
      ({ chat := some chat1
         messages := st.messages ++ [msg]
         notifications := st.notifications ++
           [mkMessageNotification authorId uid senderUsername
             senderProfilePic messageText now] }, true)
    else
      ({ chat := some chat1
         messages := st.messages ++ [msg]
         notifications := st.notifications }, false)

/-- Firestore's `arrayUnion` on a single element: append it unless present. -/
def arrayUnion (xs : List String) (x : String) : List String :=
  if x ∈ xs then xs else xs ++ [x]

/-- The filter of `markMessagesAsSeen`: messages sent by the other user that
the viewer's id is not yet in. -/
def needsSeen (uid : String) (m : Message) : Bool :=
  m.senderId ≠ uid ∧ uid ∉ m.seenBy

/-- `markMessagesAsSeen` from the chat interface's dwell effect: for every
loaded message sent by the other user whose `seenBy` lacks the viewer,
`updateDoc` with `seenBy: arrayUnion(viewer)` and `seenAt: now`; all other
messages receive no write. -/
def markMessagesAsSeen (uid : String) (now : Nat)
    (msgs : List Message) : List Message :=
  msgs.map fun m =>
    if needsSeen uid m then
      { m with seenBy := arrayUnion m.seenBy uid, seenAt := some now }
    else m

/-- The same per-message write loop restricted to a caller-chosen id set:
the spec's `markSeen(conversationId, viewerId, messageIds)` interface, where
only the listed messages are candidates. -/
def markSeenOnIds (uid : String) (now : Nat) (ids : List String)
    (msgs : List Message) : List Message :=
  msgs.map fun m =>
    if m.id ∈ ids ∧ needsSeen uid m then
      { m with seenBy := arrayUnion m.seenBy uid, seenAt := some now }
    else m

/-- The `unseenMessages` list of `markMessagesAsSeen`: exactly the messages
the loop issues a write for. -/
def markSeenWriteSet (uid : String) (msgs : List Message) : List Message :=
  msgs.filter (needsSeen uid)

/-- `handleEditMessage` from the chat interface: a blank replacement is
rejected before any write; otherwise `updateDoc` the target message with the
trimmed text and `isEdited: true`. -/
def handleEditMessage (msgs : List Message) (messageId newText : String) :
    List Message :=
  if (jsTrim newText).isEmpty then msgs
  else
    msgs.map fun m =>
      if m.id = messageId then
        { m with text := jsTrim newText, isEdited := some true }
      else m

/-- `handleDeleteMessage`: hard `deleteDoc` of the target message document. -/
def handleDeleteMessage (msgs : List Message) (messageId : String) :
    List Message :=
  msgs.filter fun m => m.id ≠ messageId

/-- The `orderBy('timestamp', 'asc')` subscription over the message
subcollection, as the snapshot listener delivers it. The model keeps
`messages` in the store's delivered order (server timestamps are assigned in
write order), so the subscription is the list itself. -/
def subscribeMessages (st : ChatStore) : List Message := st.messages

/-- `markMessagesAsSeen` acting on the store slice: it writes message
documents only. -/
def markSeenStore (st : ChatStore) (uid : String) (now : Nat) : ChatStore :=
  { st with messages := markMessagesAsSeen uid now st.messages }

/-- `handleEditMessage` acting on the store slice. -/
def editStore (st : ChatStore) (messageId newText : String) : ChatStore :=
  { st with messages := handleEditMessage st.messages messageId newText }

/-- `handleDeleteMessage` acting on the store slice. -/
def deleteStore (st : ChatStore) (messageId : String) : ChatStore :=
  { st with messages := handleDeleteMessage st.messages messageId }

/-- C4: `initializeChat` is an idempotent create: with no existing document it
creates one whose participants are exactly {A,B}, whose `createdAt` is now and
whose last-message fields are all null/absent; with an existing document it
changes nothing. -/
theorem initializeChat_idempotent_create :
    (∀ (a b : String) (now : Nat),
        (initializeChat none a b now).participants = [a, b]
      ∧ (∀ x, x ∈ (initializeChat none a b now).participants ↔ x = a ∨ x = b)
      ∧ (initializeChat none a b now).createdAt = now
      ∧ (initializeChat none a b now).lastMessage = none
      ∧ (initializeChat none a b now).lastMessageTime = none
      ∧ (initializeChat none a b now).lastMessageSender = none)
    ∧ ∀ (c : Chat) (a b : String) (now : Nat),
        initializeChat (some c) a b now = c := by
  exact ⟨fun a b now =>
    ⟨rfl, fun x => by simp [initializeChat], rfl, rfl, rfl, rfl⟩,
    fun c a b now => rfl⟩

/-- C2: on both send paths, a send with non-blank text appends a message that
the subscription delivers, with `seenBy` the singleton of the sender, `seenAt`
null, and `isEdited` reading as false (the field is unwritten). -/
theorem send_creates_seen_by_sender (st : ChatStore)
    (uid recipientId rawText storyId : String) (now : Nat)
    (su sp : String) (ok : Bool) (nid : String) (c : Chat)
    (htext : (jsTrim rawText).isEmpty = false) (hchat : st.chat = some c) :
    (∃ m : Message,
      subscribeMessages
          (handleSendMessage st uid recipientId rawText now su sp ok nid).1
        = st.messages ++ [m]
      ∧ m.senderId = uid ∧ m.seenBy = [uid] ∧ m.seenAt = none
      ∧ m.isEdited.getD false = false ∧ m.text = jsTrim rawText)
    ∧ ∃ m : Message,
      subscribeMessages
          (handleSendLikeOrMessage st uid recipientId rawText storyId now
            su sp ok nid).1
        = st.messages ++ [m]
      ∧ m.senderId = uid ∧ m.seenBy = [uid] ∧ m.seenAt = none
      ∧ m.isEdited.getD false = false ∧ m.text = jsTrim rawText := by
  constructor
  · refine ⟨mkComposerMessage nid uid (jsTrim rawText) now, ?_, rfl, rfl, rfl, rfl, rfl⟩
    simp [handleSendMessage, htext, hchat, subscribeMessages]
  · refine ⟨mkStoryReplyMessage nid uid (jsTrim rawText) storyId now, ?_, rfl, rfl, rfl, rfl, rfl⟩
    cases ok <;> simp [handleSendLikeOrMessage, htext, subscribeMessages]

/-- A demonstration store with one conversation and one exchange in flight. -/
def demoChat : Chat :=
  { participants := ["a", "b"]
    createdAt := 0
    lastMessage := some "hello"
    lastMessageTime := some 3
    lastMessageSender := some "b" }

/-- A message from "b" already seen by both participants. -/
def demoSeenMsg : Message :=
  { id := "m0", text := "hello", senderId := "b", timestamp := 3
    seenBy := ["b", "a"], seenAt := some 4
    isStoryReply := none, storyId := none, isEdited := none }

/-- A demonstration store slice for concrete instantiations. -/
def demoStore : ChatStore :=
  { chat := some demoChat, messages := [demoSeenMsg], notifications := [] }

theorem send_creates_seen_by_sender_witness :
    ∃ m : Message,
      subscribeMessages
          (handleSendMessage demoStore "a" "b" " hi " 5 "alice" "pic" true "m1").1
        = demoStore.messages ++ [m]
      ∧ m.senderId = "a" ∧ m.seenBy = ["a"] ∧ m.seenAt = none
      ∧ m.isEdited.getD false = false ∧ m.text = jsTrim " hi " :=
  (send_creates_seen_by_sender demoStore "a" "b" " hi " "s1" 5 "alice" "pic"
    true "m1" demoChat (by decide) rfl).1

theorem needsSeen_after_mark (uid : String) (now : Nat) (m : Message) :
    needsSeen uid
      { m with seenBy := arrayUnion m.seenBy uid, seenAt := some now } = false := by
  simp only [needsSeen, decide_eq_false_iff_not, not_and, not_not]
  intro _
  by_cases hmem : uid ∈ m.seenBy
  · simp [arrayUnion, hmem]
  · simp [arrayUnion, hmem]

theorem needsSeen_false_of_seen_or_own (uid : String) (m : Message)
    (h : uid ∈ m.seenBy ∨ m.senderId = uid) : needsSeen uid m = false := by
  simp only [needsSeen, decide_eq_false_iff_not, not_and, not_not]
  intro hs
  rcases h with h | h
  · exact h
  · exact absurd h hs

theorem markMessagesAsSeen_idem (uid : String) (now1 now2 : Nat)
    (msgs : List Message) :
    markMessagesAsSeen uid now2 (markMessagesAsSeen uid now1 msgs)
      = markMessagesAsSeen uid now1 msgs := by
  induction msgs with
  | nil => rfl
  | cons a as ih =>
    simp only [markMessagesAsSeen, List.map_cons] at ih ⊢
    refine congrArg₂ (· :: ·) ?_ ih
    by_cases h : needsSeen uid a = true
    · simp [h, needsSeen_after_mark uid now1 a]
    · have hf : needsSeen uid a = false := by
        revert h; cases needsSeen uid a <;> simp
      simp [hf]

theorem markSeenOnIds_idem (uid : String) (now1 now2 : Nat)
    (ids : List String) (msgs : List Message) :
    markSeenOnIds uid now2 ids (markSeenOnIds uid now1 ids msgs)
      = markSeenOnIds uid now1 ids msgs := by
  induction msgs with
  | nil => rfl
  | cons a as ih =>
    simp only [markSeenOnIds, List.map_cons] at ih ⊢
    refine congrArg₂ (· :: ·) ?_ ih
    by_cases hid : a.id ∈ ids
    · by_cases h : needsSeen uid a = true
      · simp [hid, h, needsSeen_after_mark uid now1 a]
      · have hf : needsSeen uid a = false := by
          revert h; cases needsSeen uid a <;> simp
        simp [hid, hf]
    · simp [hid]

/-- C3: marking seen is idempotent — running the dwell-effect loop (or the
id-restricted variant) twice with the same viewer yields the same message
documents as running it once, whatever timestamps the two runs see — and a
message already containing the viewer in `seenBy`, or sent by the viewer, is
not written at all (it is outside the loop's write set and a run maps it to
itself unchanged). -/
theorem markSeen_idempotent_and_frame (uid : String) (now1 now2 : Nat)
    (ids : List String) (msgs : List Message) :
    markMessagesAsSeen uid now2 (markMessagesAsSeen uid now1 msgs)
      = markMessagesAsSeen uid now1 msgs
    ∧ markSeenOnIds uid now2 ids (markSeenOnIds uid now1 ids msgs)
      = markSeenOnIds uid now1 ids msgs
    ∧ ∀ m ∈ msgs, (uid ∈ m.seenBy ∨ m.senderId = uid) →
        m ∉ markSeenWriteSet uid msgs
        ∧ markMessagesAsSeen uid now1 [m] = [m] := by
  refine ⟨markMessagesAsSeen_idem uid now1 now2 msgs,
    markSeenOnIds_idem uid now1 now2 ids msgs, fun m _ h => ⟨?_, ?_⟩⟩
  · intro hmem
    have := List.of_mem_filter hmem
    rw [needsSeen_false_of_seen_or_own uid m h] at this
    exact Bool.false_ne_true this
  · simp [markMessagesAsSeen, needsSeen_false_of_seen_or_own uid m h]

theorem markSeen_idempotent_and_frame_witness :
    demoSeenMsg ∉ markSeenWriteSet "a" [demoSeenMsg]
    ∧ markMessagesAsSeen "a" 7 [demoSeenMsg] = [demoSeenMsg] :=
  (markSeen_idempotent_and_frame "a" 7 8 ["m0"] [demoSeenMsg]).2.2
    demoSeenMsg (by decide) (Or.inl (by decide))

/-- Per-conversation unread test of the precise `useUnreadMessages` variant:
skip the chat when `lastMessage` or `lastMessageSender` is null/absent/empty
(JavaScript falsiness); when the last sender is not the viewer, query the
messages sent by that sender and report unread when any of them lacks the
viewer in `seenBy`. -/
def chatHasUnreadPrecise (uid : String) (chat : Chat)
    (msgs : List Message) : Bool :=
  match chat.lastMessage, chat.lastMessageSender with
  | some lm, some ls =>
      if lm.isEmpty || ls.isEmpty then false
      else if ls ≠ uid then
        (msgs.filter fun m => m.senderId = ls).any fun m => uid ∉ m.seenBy
      else false
  | _, _ => false

/-- The precise hook's total: one per unread conversation. -/
def useUnreadMessagesPrecise (uid : String)
    (chats : List (Chat × List Message)) : Nat :=
  (chats.filter fun p => chatHasUnreadPrecise uid p.1 p.2).length

/-- Per-conversation unread test of the coarse `useUnreadMessages` variant:
skip on null/absent/empty summary fields, then count the chat whenever the
last sender is someone else, ignoring per-message seen state. -/
def chatCountsUnreadCoarse (uid : String) (chat : Chat) : Bool :=
  match chat.lastMessage, chat.lastMessageSender with
  | some lm, some ls =>
      if lm.isEmpty || ls.isEmpty then false else ls ≠ uid
  | _, _ => false

/-- The coarse hook's total (`getUnreadCount`): one per conversation whose
last sender is someone else. -/
def getUnreadCountCoarse (uid : String) (chats : List Chat) : Nat :=
  (chats.filter (chatCountsUnreadCoarse uid)).length

/-- C5: for a chat whose last-message summary is present and whose last sender
B differs from the viewer A, the precise variant reports unread exactly when
some message sent by B lacks A in `seenBy`. -/
theorem unread_precise_iff (a b : String) (chat : Chat) (msgs : List Message)
    (hlm : ∃ t, chat.lastMessage = some t ∧ t.isEmpty = false)
    (hls : chat.lastMessageSender = some b) (hb : b.isEmpty = false)
    (hba : b ≠ a) :
    chatHasUnreadPrecise a chat msgs = true
      ↔ ∃ m ∈ msgs, m.senderId = b ∧ a ∉ m.seenBy := by
  obtain ⟨t, hlm1, hlm2⟩ := hlm
  simp only [chatHasUnreadPrecise, hlm1, hls, hlm2, hb, Bool.or_self,
    Bool.false_eq_true, if_false, ne_eq, hba, not_false_eq_true, if_true,
    List.any_eq_true, List.mem_filter, decide_eq_true_eq]
  constructor
  · rintro ⟨m, ⟨hm, hsend⟩, hseen⟩
    exact ⟨m, hm, hsend, hseen⟩
  · rintro ⟨m, hm, hsend, hseen⟩
    exact ⟨m, ⟨hm, hsend⟩, hseen⟩

/-- Three messages from "b" to "a", none viewed by "a" yet. -/
def demoB3 : List Message :=
  [ { id := "m1", text := "one", senderId := "b", timestamp := 1
      seenBy := ["b"], seenAt := none
      isStoryReply := none, storyId := none, isEdited := none },
    { id := "m2", text := "two", senderId := "b", timestamp := 2
      seenBy := ["b"], seenAt := none
      isStoryReply := none, storyId := none, isEdited := none },
    { id := "m3", text := "three", senderId := "b", timestamp := 3
      seenBy := ["b"], seenAt := none
      isStoryReply := none, storyId := none, isEdited := none } ]

/-- The conversation summary after the third of `demoB3` was sent. -/
def demoChatB3 : Chat :=
  { participants := ["a", "b"]
    createdAt := 0
    lastMessage := some "three"
    lastMessageTime := some 3
    lastMessageSender := some "b" }

theorem unread_precise_iff_witness :
    chatHasUnreadPrecise "a" demoChatB3
      (markSeenOnIds "a" 9 ["m1", "m2"] demoB3) = true :=
  (unread_precise_iff "a" "b" demoChatB3
      (markSeenOnIds "a" 9 ["m1", "m2"] demoB3)
      ⟨"three", rfl, rfl⟩ rfl rfl (by decide)).mpr
    ⟨{ id := "m3", text := "three", senderId := "b", timestamp := 3
       seenBy := ["b"], seenAt := none
       isStoryReply := none, storyId := none, isEdited := none },
      by decide, rfl, by decide⟩

/-- C6: a chat with a present last message from B ≠ A counts as unread for A
under the coarse variant; after any reply by A the same chat no longer
counts; and the coarse total never exceeds one per conversation. -/
theorem unread_coarse_scenario (a b t t2 : String) (chat : Chat)
    (chats : List Chat) (now : Nat)
    (hlm : chat.lastMessage = some t) (ht : t.isEmpty = false)
    (hls : chat.lastMessageSender = some b) (hb : b.isEmpty = false)
    (hba : b ≠ a) :
    chatCountsUnreadCoarse a chat = true
    ∧ chatCountsUnreadCoarse a (recordLastMessage chat t2 now a) = false
    ∧ getUnreadCountCoarse a chats ≤ chats.length := by
  refine ⟨?_, ?_, List.length_filter_le _ _⟩
  · simp [chatCountsUnreadCoarse, hlm, hls, ht, hb, hba]
  · simp [chatCountsUnreadCoarse, recordLastMessage]

theorem unread_coarse_scenario_witness :
    chatCountsUnreadCoarse "a" demoChat = true
    ∧ chatCountsUnreadCoarse "a" (recordLastMessage demoChat "ok" 9 "a") = false
    ∧ getUnreadCountCoarse "a" [demoChat] ≤ [demoChat].length :=
  unread_coarse_scenario "a" "b" "hello" "ok" demoChat [demoChat] 9
    rfl rfl rfl rfl (by decide)

/-- C8 counterexample: the edit handler stores the TRIMMED replacement text,
so reading back after `editMessage(id, " hi there ")` yields "hi there", not
the supplied `newText`. -/
theorem edit_roundtrip_counterexample :
    (handleEditMessage [demoSeenMsg] "m0" " hi there ").map
        (fun m => m.text) = ["hi there"]
    ∧ "hi there" ≠ " hi there " := by decide

/-- C8 (amended): for a replacement whose trim is non-blank, the edited
message reads back with `text = trim(newText)` and `isEdited = true`, while
every message at any other position (and any message with a different id) is
returned bit-for-bit unchanged at its original index; a whitespace-only
replacement is rejected before any write. -/
theorem edit_roundtrip_amended (msgs : List Message) (messageId newText : String)
    (h : (jsTrim newText).isEmpty = false) :
    (∀ (i : Nat) (m : Message), msgs[i]? = some m →
      (handleEditMessage msgs messageId newText)[i]? =
        some (if m.id = messageId then
          { m with text := jsTrim newText, isEdited := some true } else m))
    ∧ ∀ blank : String, (jsTrim blank).isEmpty = true →
        handleEditMessage msgs messageId blank = msgs := by
  constructor
  · intro i m hm
    simp [handleEditMessage, h, hm]
  · intro blank hb
    simp [handleEditMessage, hb]

theorem edit_roundtrip_amended_witness :
    (handleEditMessage [demoSeenMsg] "m0" "new text")[0]? =
      some (if demoSeenMsg.id = "m0" then
        { demoSeenMsg with text := jsTrim "new text", isEdited := some true }
      else demoSeenMsg) :=
  (edit_roundtrip_amended [demoSeenMsg] "m0" "new text" (by decide)).1
    0 demoSeenMsg rfl

/-- A 51-character message text. -/
def longDemoText : String := String.mk (List.replicate 51 'a')

/-- C9 counterexample: on a 51-character text the notification preview is the
first 50 characters followed by the three ASCII dots "...", which differs from
the first 50 characters followed by the single ellipsis character "…". -/
theorem preview_suffix_counterexample :
    messagePreview longDemoText = String.mk (List.replicate 50 'a') ++ "..."
    ∧ messagePreview longDemoText ≠ String.mk (List.replicate 50 'a') ++ "…" := by
  decide

/-- C9 (amended): on both send paths the notification written for the
recipient carries a preview equal to the full message text when its length is
at most 50, and to the first 50 characters followed by "..." (three ASCII
dots) when longer; the message document itself stores the full message text
untruncated. -/
theorem preview_and_full_text_amended (st : ChatStore)
    (uid rid rawText storyId : String) (now : Nat) (su sp nid : String)
    (c : Chat) (htext : (jsTrim rawText).isEmpty = false)
    (hchat : st.chat = some c) :
    (handleSendMessage st uid rid rawText now su sp true nid).1.notifications
      = st.notifications
          ++ [mkMessageNotification rid uid su sp (jsTrim rawText) now]
    ∧ (handleSendLikeOrMessage st uid rid rawText storyId now su sp
          true nid).1.notifications
      = st.notifications
          ++ [mkMessageNotification rid uid su sp (jsTrim rawText) now]
    ∧ (mkMessageNotification rid uid su sp (jsTrim rawText) now).messagePreview
      = (if (jsTrim rawText).length ≤ 50 then jsTrim rawText
         else String.mk ((jsTrim rawText).data.take 50) ++ "...")
    ∧ (handleSendMessage st uid rid rawText now su sp true nid).1.messages
      = st.messages ++ [mkComposerMessage nid uid (jsTrim rawText) now]
    ∧ (mkComposerMessage nid uid (jsTrim rawText) now).text = jsTrim rawText
    ∧ (handleSendLikeOrMessage st uid rid rawText storyId now su sp
          true nid).1.messages
      = st.messages ++ [mkStoryReplyMessage nid uid (jsTrim rawText) storyId now]
    ∧ (mkStoryReplyMessage nid uid (jsTrim rawText) storyId now).text
      = jsTrim rawText := by
  refine ⟨?_, ?_, ?_, ?_, rfl, ?_, rfl⟩
  · simp [handleSendMessage, htext, hchat]
  · simp [handleSendLikeOrMessage, htext]
  · by_cases hlen : (jsTrim rawText).length ≤ 50
    · simp [mkMessageNotification, messagePreview, Nat.not_lt.mpr hlen, hlen]
    · simp [mkMessageNotification, messagePreview, Nat.lt_of_not_le hlen, hlen]
  · simp [handleSendMessage, htext, hchat]
  · simp [handleSendLikeOrMessage, htext]

theorem preview_and_full_text_amended_witness :
    (mkMessageNotification "b" "a" "alice" "pic" (jsTrim "hi") 5).messagePreview
      = (if (jsTrim "hi").length ≤ 50 then jsTrim "hi"
         else String.mk ((jsTrim "hi").data.take 50) ++ "...") :=
  (preview_and_full_text_amended demoStore "a" "b" "hi" "s1" 5 "alice" "pic"
    "m1" demoChat (by decide) rfl).2.2.1

/-- C7 counterexample: on the story-reply path the notification write is not
wrapped in its own try/catch, so a rejected notification write aborts the
handler into its outer catch — the send is reported as failed ("Failed to
send message", input retained) even though the message was appended. -/
theorem notification_failure_counterexample :
    (handleSendLikeOrMessage demoStore "a" "b" "hi" "s1" 5 "alice" "pic"
        false "m1").2 = false
    ∧ (handleSendLikeOrMessage demoStore "a" "b" "hi" "s1" 5 "alice" "pic"
        false "m1").1.messages
      = demoStore.messages ++ [mkStoryReplyMessage "m1" "a" "hi" "s1" 5] := by
  decide

/-- C7 (amended): a failed notification write never rolls back the appended
message or the conversation-summary update on either path; on the composer
path it is additionally swallowed (the handler completes normally), while on
the story-reply path the handler reports the send as failed. -/
theorem notification_failure_no_rollback (st : ChatStore)
    (uid rid rawText storyId : String) (now : Nat) (su sp nid : String)
    (c : Chat) (htext : (jsTrim rawText).isEmpty = false)
    (hchat : st.chat = some c) :
    ((handleSendMessage st uid rid rawText now su sp false nid).2 = true
      ∧ (handleSendMessage st uid rid rawText now su sp false nid).1
        = { chat := some (recordLastMessage c (jsTrim rawText) now uid)
            messages := st.messages
              ++ [mkComposerMessage nid uid (jsTrim rawText) now]
            notifications := st.notifications })
    ∧ (handleSendLikeOrMessage st uid rid rawText storyId now su sp
          false nid).2 = false
    ∧ (handleSendLikeOrMessage st uid rid rawText storyId now su sp
          false nid).1
        = { chat := some (recordLastMessage c (jsTrim rawText) now uid)
            messages := st.messages
              ++ [mkStoryReplyMessage nid uid (jsTrim rawText) storyId now]
            notifications := st.notifications } := by
  refine ⟨⟨?_, ?_⟩, ?_, ?_⟩ <;>
    simp [handleSendMessage, handleSendLikeOrMessage, htext, hchat]

theorem notification_failure_no_rollback_witness :
    (handleSendMessage demoStore "a" "b" "hi" 5 "alice" "pic" false "m1").2
      = true :=
  (notification_failure_no_rollback demoStore "a" "b" "hi" "s1" 5 "alice"
    "pic" "m1" demoChat (by decide) rfl).1.1

/-- C10: once the conversation document exists, no operation changes its
`participants` or `createdAt`: each send path rewrites exactly the three
summary fields (via the `recordLastMessage` update, which leaves the other
fields untouched), re-running `initializeChat` is a no-op, and marking seen,
editing and deleting touch message documents only, leaving the conversation
document untouched. -/
theorem conversation_frame (st : ChatStore)
    (uid rid rawText storyId newText mid : String) (now now2 : Nat)
    (su sp nid : String) (ok : Bool) (c : Chat)
    (htext : (jsTrim rawText).isEmpty = false)
    (hchat : st.chat = some c) :
    (handleSendMessage st uid rid rawText now su sp ok nid).1.chat
      = some (recordLastMessage c (jsTrim rawText) now uid)
    ∧ (handleSendLikeOrMessage st uid rid rawText storyId now su sp
          ok nid).1.chat
      = some (recordLastMessage c (jsTrim rawText) now uid)
    ∧ (∀ t n s, (recordLastMessage c t n s).participants = c.participants
        ∧ (recordLastMessage c t n s).createdAt = c.createdAt
        ∧ (recordLastMessage c t n s).lastMessage = some t
        ∧ (recordLastMessage c t n s).lastMessageTime = some n
        ∧ (recordLastMessage c t n s).lastMessageSender = some s)
    ∧ initializeChat (some c) uid rid now = c
    ∧ (markSeenStore st uid now2).chat = st.chat
    ∧ (editStore st mid newText).chat = st.chat
    ∧ (deleteStore st mid).chat = st.chat := by
  refine ⟨?_, ?_, fun t n s => ⟨rfl, rfl, rfl, rfl, rfl⟩, rfl, rfl, rfl, rfl⟩
  · cases ok <;> simp [handleSendMessage, htext, hchat]
  · cases ok <;> simp [handleSendLikeOrMessage, htext, hchat]

theorem conversation_frame_witness :
    (handleSendMessage demoStore "a" "b" "hi" 5 "alice" "pic" true "m1").1.chat
      = some (recordLastMessage demoChat (jsTrim "hi") 5 "a") :=
  (conversation_frame demoStore "a" "b" "hi" "s1" "x" "m0" 5 9 "alice" "pic"
    "m1" true demoChat (by decide) rfl).1
